import Mathlib

/-!
Shallow embedding of the client-side data-window manager
(`src/client/src/stores/DataStore.ts` and the scroll handler in the
table component).  Records are kept opaque: the store is parameterised
by the record type `α`.  Asynchronous network calls are embedded by
passing the outcome of the request (`FetchOutcome`) explicitly to the
function that models the whole `async` operation.
-/

/-- `FilterCondition` from `DataStore.ts` (`value: any` is kept opaque as a
string; no operation in scope inspects it). -/
structure FilterCondition where
  column : String
  operator : String
  value : String
  deriving DecidableEq

/-- `SortCondition` from `DataStore.ts`. -/
structure SortCondition where
  column : String
  direction : String
  priority : Nat
  deriving DecidableEq

/-- The subset of antd's `TablePaginationConfig` the store uses.  All three
fields are optional in the TypeScript type; `none` models `undefined`. -/
structure TablePaginationConfig where
  current : Option Nat
  pageSize : Option Nat
  total : Option Nat
  deriving DecidableEq

/-- JavaScript `x || d` for an optional number: `undefined` and `0` are
falsy and fall through to the default. -/
def jsOr (x : Option Nat) (d : Nat) : Nat :=
  match x with
  | none => d
  | some v => if v = 0 then d else v

/-- JavaScript `Array.prototype.slice(start)` with a single, possibly
negative, start index. -/
def jsSlice (l : List α) (start : Int) : List α :=
  if start < 0 then l.drop (max ((l.length : Int) + start) 0).toNat
  else l.drop (min start (l.length : Int)).toNat

/-- The mutable state of `class DataStore`.  `isFetching` is the private
full-refresh guard; `maxRecords` is the window capacity (3000 at
initialisation). -/
structure DataStore (α : Type) where
  data : List α
  loading : Bool
  error : Option String
  pagination : TablePaginationConfig
  filters : List FilterCondition
  sorts : List SortCondition
  globalSearch : String
  maxRecords : Nat
  isFetching : Bool
  deriving DecidableEq

/-- The field initialisers of `class DataStore`. -/
def initStore (α : Type) : DataStore α where
  data := []
  loading := false
  error := none
  pagination := { current := some 1, pageSize := some 1000, total := some 0 }
  filters := []
  sorts := []
  globalSearch := ""
  maxRecords := 3000
  isFetching := false

/-- The request body sent to `POST /data`.  `limit` is sent raw
(`pageSize` may be `undefined` in a full refresh), while `offset` is
computed with defaulting. -/
structure RequestBody where
  offset : Nat
  limit : Option Nat
  filters : List FilterCondition
  sorts : List SortCondition
  global_search : String
  deriving DecidableEq

/-- Outcome of one awaited network request: `success` carries the decoded
`{data, total}` body; `failure` is any thrown error (transport, non-ok
status, or decode), carrying the message the `catch` block sees. -/
inductive FetchOutcome (α : Type) where
  | success (data : List α) (total : Nat)
  | failure (msg : String)
  deriving DecidableEq

/-- `fetchData`, part 1: the synchronous prefix up to issuing the request.
Returns the new state together with the request issued, or `none` when the
call is dropped by the `isFetching` guard (`if (this.isFetching) return`). -/
def fetchBegin (s : DataStore α) : DataStore α × Option RequestBody :=
  if s.isFetching then (s, none)
  else
    ({ s with isFetching := true, loading := true, error := none },
     some { offset := (jsOr s.pagination.current 1 - 1) * jsOr s.pagination.pageSize 1000
            limit := s.pagination.pageSize
            filters := s.filters
            sorts := s.sorts
            global_search := s.globalSearch })

/-- `fetchData`, part 2: the continuation after the awaited request
settles — the success `runInAction`, the `catch` block, and the `finally`
block folded in. -/
def fetchEnd (s : DataStore α) (o : FetchOutcome α) : DataStore α :=
  match o with
  | .success d t =>
      { s with data := d
               pagination := { s.pagination with total := some t }
               loading := false
               isFetching := false }
  | .failure m =>
      { s with error := some m
               loading := false
               isFetching := false }

/-- The whole `async fetchData()` run, given the outcome the network would
produce.  The second component is the request actually sent (`none` when
the guard dropped the call). -/
def fetchData (s : DataStore α) (o : FetchOutcome α) : DataStore α × Option RequestBody :=
  match fetchBegin s with
  | (s1, none) => (s1, none)
  | (s1, some req) => (fetchEnd s1 o, some req)

/-- `setPagination`: replaces the pagination descriptor, then calls
`fetchData`. -/
def setPagination (s : DataStore α) (p : TablePaginationConfig) (o : FetchOutcome α) :
    DataStore α × Option RequestBody :=
  fetchData { s with pagination := p } o

/-- The handler wrapped by `debounce` in `setFilters`: replaces the
filters, resets `pagination.current` to 1, then calls `fetchData`. -/
def setFilters (s : DataStore α) (fs : List FilterCondition) (o : FetchOutcome α) :
    DataStore α × Option RequestBody :=
  fetchData
    { s with filters := fs
             pagination := { s.pagination with current := some 1 } } o

/-- The handler wrapped by `debounce` in `setSorts`: replaces the sorts,
then calls `fetchData` (the source does not touch `pagination.current`
here). -/
def setSorts (s : DataStore α) (ss : List SortCondition) (o : FetchOutcome α) :
    DataStore α × Option RequestBody :=
  fetchData { s with sorts := ss } o

/-- The handler wrapped by `debounce` in `setGlobalSearch`: replaces the
search string, resets `pagination.current` to 1, then calls `fetchData`. -/
def setGlobalSearch (s : DataStore α) (q : String) (o : FetchOutcome α) :
    DataStore α × Option RequestBody :=
  fetchData
    { s with globalSearch := q
             pagination := { s.pagination with current := some 1 } } o

/-- `handleScrollLoad`, part 1: the pre-fetch trim
`if (this.data.length >= this.maxRecords) this.data = this.data.slice(-this.maxRecords + limit)`.
It runs before the request is awaited. -/
def scrollTrim (s : DataStore α) (limit : Nat) : DataStore α :=
  if s.data.length ≥ s.maxRecords then
    { s with data := jsSlice s.data ((limit : Int) - (s.maxRecords : Int)) }
  else s

/-- The whole `async handleScrollLoad(offset, limit)` run, given the
outcome the network would produce.  On success the response data is
appended and `total` updated; on failure the error is only logged
(`console.error`), so the state after the trim is returned unchanged.
The second component is the request sent. -/
def handleScrollLoad (s : DataStore α) (off limit : Nat) (o : FetchOutcome α) :
    DataStore α × RequestBody :=
  let s1 := scrollTrim s limit
  let req : RequestBody :=
    { offset := off, limit := some limit, filters := s1.filters
      sorts := s1.sorts, global_search := s1.globalSearch }
  match o with
  | .success d t =>
      ({ s1 with data := s1.data ++ d
                 pagination := { s1.pagination with total := some t } }, req)
  | .failure _ => (s1, req)

/-- `handleScroll` from the table component: decides from scroll geometry
and store state whether to issue a scroll-load fetch, and with which
`(offset, limit)`.  Geometry is modelled with integers so the sign of the
remainder is kept exact. -/
def handleScroll (s : DataStore α) (scrollTop scrollHeight clientHeight : Int) :
    Option (Nat × Nat) :=
  if scrollHeight - (scrollTop + clientHeight) < 100
      && !s.loading
      && decide (s.data.length < jsOr s.pagination.total 0) then
    some (s.data.length, jsOr s.pagination.pageSize 1000)
  else none

/-- Modelled from the spec: the file `src/client/src/utils/debounce.ts`
referenced by `DataStore.ts` is not among the sources; only its call
sites are.  Per spec §4.1, each invocation of the wrapped function
schedules the handler after the quiet period `wait`; an invocation
arriving before the pending timer fires cancels and replaces it.  Given
the time-stamped calls of one channel (timestamps nondecreasing), this
returns the calls whose handler actually executes: a call survives only
if no later call arrives strictly before its timer would fire. -/
def debounceExecuted (wait : Nat) : List (Nat × α) → List (Nat × α)
  | [] => []
  | [c] => [c]
  | c1 :: c2 :: rest =>
      if c2.1 < c1.1 + wait then debounceExecuted wait (c2 :: rest)
      else c1 :: debounceExecuted wait (c2 :: rest)

/-- A burst: every consecutive gap is strictly below the quiet period. -/
def gapsBelow (wait : Nat) : List (Nat × α) → Bool
  | c1 :: c2 :: rest => decide (c2.1 < c1.1 + wait) && gapsBelow wait (c2 :: rest)
  | _ => true

/-- Events of the full-refresh channel, for the in-flight trace model:
a call to `fetchData` starting, or an issued request settling with some
outcome. -/
inductive FetchEv (α : Type) where
  | start
  | settle (o : FetchOutcome α)

/-- One step of the full-refresh trace model.  The natural number is the
count of requests currently in flight: it grows exactly when `fetchBegin`
issues a request, and shrinks when the outstanding request settles (the
`await` resumes and runs the success / catch / finally blocks).  A settle
event with no request outstanding (`isFetching = false`) has nothing to
resume and is a no-op. -/
def fetchStep (st : DataStore α × Nat) (e : FetchEv α) : DataStore α × Nat :=
  match e with
  | .start =>
      match fetchBegin st.1 with
      | (s1, none) => (s1, st.2)
      | (s1, some _) => (s1, st.2 + 1)
  | .settle o =>
      if st.1.isFetching then (fetchEnd st.1 o, st.2 - 1) else st

/-- Run a trace of full-refresh events from a state. -/
def fetchRun (st : DataStore α × Nat) (evs : List (FetchEv α)) : DataStore α × Nat :=
  evs.foldl fetchStep st

/-! ### Helper lemmas -/

/-- The coupling between the ghost in-flight count and the busy flag. -/
def inflightOk (st : DataStore α × Nat) : Prop :=
  st.2 = (if st.1.isFetching then 1 else 0)

theorem fetchEnd_isFetching (s : DataStore α) (o : FetchOutcome α) :
    (fetchEnd s o).isFetching = false := by
  cases o <;> simp [fetchEnd]

theorem fetchStep_inflightOk (st : DataStore α × Nat) (e : FetchEv α)
    (h : inflightOk st) : inflightOk (fetchStep st e) := by
  obtain ⟨s, k⟩ := st
  cases e with
  | start =>
      by_cases hf : s.isFetching
      · simpa [fetchStep, fetchBegin, hf, inflightOk] using h
      · simp [inflightOk, hf] at h
        simp [fetchStep, fetchBegin, hf, inflightOk, h]
  | settle o =>
      by_cases hf : s.isFetching
      · simp [inflightOk, hf] at h
        simp [fetchStep, hf, inflightOk, fetchEnd_isFetching, h]
      · simpa [fetchStep, hf, inflightOk] using h

theorem fetchRun_inflightOk (evs : List (FetchEv α)) (st : DataStore α × Nat)
    (h : inflightOk st) : inflightOk (fetchRun st evs) := by
  induction evs generalizing st with
  | nil => exact h
  | cons e rest ih => exact ih _ (fetchStep_inflightOk st e h)

/-! ### Claim theorems: fetch coordinator -/

/-- C5: at most one full-refresh fetch is in flight at every instant (the
ghost in-flight count along any event trace from the initial store never
exceeds 1), and a `fetchData` call made while one is in flight is dropped
as a no-op: no request is issued and the state is unchanged. -/
theorem fullRefresh_mutual_exclusion :
    (∀ (α : Type) (s : DataStore α) (o : FetchOutcome α),
        s.isFetching = true → fetchData s o = (s, none)) ∧
    (∀ (α : Type) (evs : List (FetchEv α)),
        (fetchRun (initStore α, 0) evs).2 ≤ 1) := by
  constructor
  · intro α s o h
    simp [fetchData, fetchBegin, h]
  · intro α evs
    have h := fetchRun_inflightOk evs (initStore α, 0) (by simp [inflightOk, initStore])
    rw [inflightOk] at h
    rw [h]
    split <;> simp

/-- Witness for C5 at a concrete busy store and a concrete two-start trace. -/
theorem fullRefresh_mutual_exclusion_witness :
    fetchData { initStore Nat with isFetching := true } (.failure "boom")
        = ({ initStore Nat with isFetching := true }, none) ∧
    (fetchRun (initStore Nat, 0) [.start, .start]).2 ≤ 1 :=
  ⟨fullRefresh_mutual_exclusion.1 Nat _ _ rfl,
   fullRefresh_mutual_exclusion.2 Nat _⟩

/-- C6: a failing full-refresh fetch records the error message in the
user-visible `error` field and leaves the cached items untouched, and in
every outcome (success or failure, any thrown request being modelled as a
failure outcome) both the `loading` flag and the `isFetching` guard are
cleared before the operation returns. -/
theorem fullRefresh_failure_and_busy_release (α : Type) (s : DataStore α)
    (o : FetchOutcome α) (h : s.isFetching = false) :
    (fetchData s o).1.loading = false ∧
    (fetchData s o).1.isFetching = false ∧
    (∀ m, o = .failure m →
        (fetchData s o).1.error = some m ∧ (fetchData s o).1.data = s.data) := by
  cases o <;> simp [fetchData, fetchBegin, fetchEnd, h]

/-- Witness for C6: a failing fetch from the initial store. -/
theorem fullRefresh_failure_witness :
    (fetchData (initStore Nat) (.failure "boom")).1.loading = false ∧
    (fetchData (initStore Nat) (.failure "boom")).1.isFetching = false ∧
    (fetchData (initStore Nat) (.failure "boom")).1.error = some "boom" ∧
    (fetchData (initStore Nat) (.failure "boom")).1.data = [] := by
  have h := fullRefresh_failure_and_busy_release Nat (initStore Nat) (.failure "boom") rfl
  exact ⟨h.1, h.2.1, (h.2.2 "boom" rfl).1, (h.2.2 "boom" rfl).2⟩

/-- C9: a successful full-refresh fetch replaces the cached items by the
response data verbatim — no eviction, whatever the response length — and
sets the known total to the response total. -/
theorem fullRefresh_success_replaces (α : Type) (s : DataStore α)
    (d : List α) (t : Nat) (h : s.isFetching = false) :
    (fetchData s (.success d t)).1.data = d ∧
    (fetchData s (.success d t)).1.pagination.total = some t := by
  simp [fetchData, fetchBegin, fetchEnd, h]

/-- Witness for C9: a response longer than the capacity (`maxRecords` is
3000; the response has 4000 items) is stored verbatim. -/
theorem fullRefresh_success_witness :
    (fetchData (initStore Nat) (.success (List.replicate 4000 7) 9000)).1.data
        = List.replicate 4000 7 ∧
    (fetchData (initStore Nat) (.success (List.replicate 4000 7) 9000)).1.pagination.total
        = some 9000 :=
  fullRefresh_success_replaces Nat (initStore Nat) (List.replicate 4000 7) 9000 rfl

/-- C10: the offset sent by a full-refresh fetch is
`(current - 1) * pageSize`, where a missing (`undefined`) or zero
`current` defaults to 1 and a missing or zero `pageSize` defaults to
1000; in particular `current = 1` always sends offset 0. -/
theorem fullRefresh_request_offset (α : Type) (s : DataStore α)
    (o : FetchOutcome α) (req : RequestBody)
    (h : (fetchData s o).2 = some req) :
    (∀ c p, s.pagination.current = some (c + 1) →
        s.pagination.pageSize = some (p + 1) → req.offset = c * (p + 1)) ∧
    ((s.pagination.current = none ∨ s.pagination.current = some 0) →
        req.offset = 0) ∧
    (∀ c, s.pagination.current = some (c + 1) →
        (s.pagination.pageSize = none ∨ s.pagination.pageSize = some 0) →
        req.offset = c * 1000) ∧
    (s.pagination.current = some 1 → req.offset = 0) := by
  have hf : s.isFetching = false := by
    by_contra hf
    simp [fetchData, fetchBegin, eq_true_of_ne_false hf] at h
  have hreq : req.offset
      = (jsOr s.pagination.current 1 - 1) * jsOr s.pagination.pageSize 1000 := by
    simp [fetchData, fetchBegin, hf] at h
    rw [← h]
  refine ⟨?_, ?_, ?_, ?_⟩
  · intro c p hc hp
    simp [hreq, hc, hp, jsOr]
  · rintro (hc | hc) <;> simp [hreq, hc, jsOr]
  · rintro c hc (hp | hp) <;> simp [hreq, hc, hp, jsOr]
  · intro hc
    simp [hreq, hc, jsOr]

/-- Witness for C10: the initial store (`current = 1`, `pageSize = 1000`)
sends offset 0. -/
theorem fullRefresh_request_offset_witness :
    ∃ req, (fetchData (initStore Nat) (.success [] 0)).2 = some req ∧ req.offset = 0 := by
  refine ⟨(fetchBegin (initStore Nat)).2.get (by decide), by decide, ?_⟩
  have h := fullRefresh_request_offset Nat (initStore Nat) (.success [] 0)
      ((fetchBegin (initStore Nat)).2.get (by decide)) (by decide)
  exact h.2.2.2 rfl

/-! ### Claim theorems: scroll trigger and debounce -/

/-- C8: the scroll trigger fires exactly when the unscrolled remainder is
below 100 units, the full-refresh channel is not busy (the `loading` flag
is how the component observes an in-flight full refresh), and the cached
item count is strictly below the known total (0 when the total is unset);
when it fires, the requested offset is the cache length and the requested
limit is the page size, defaulting to 1000 when unset or zero. -/
theorem scrollTrigger_fires_iff (α : Type) (s : DataStore α)
    (scrollTop scrollHeight clientHeight : Int) :
    handleScroll s scrollTop scrollHeight clientHeight =
      if scrollHeight - (scrollTop + clientHeight) < 100 ∧ s.loading = false ∧
          s.data.length < jsOr s.pagination.total 0
      then some (s.data.length, jsOr s.pagination.pageSize 1000)
      else none := by
  rw [handleScroll]
  by_cases h1 : scrollHeight - (scrollTop + clientHeight) < 100 <;>
    by_cases h2 : s.loading = false <;>
      by_cases h3 : s.data.length < jsOr s.pagination.total 0 <;>
        simp_all

/-- Modelled from the spec (§4.1): for a nonempty burst of calls on one
debounced channel in which every consecutive gap is strictly shorter than
the quiet period, exactly one handler invocation occurs, with the
arguments of the last call; all superseded calls execute nothing.  This
is C7. -/
theorem debounce_burst_last_only (α : Type) (wait : Nat) (c : Nat × α)
    (cs : List (Nat × α)) (h : gapsBelow wait (c :: cs) = true) :
    debounceExecuted wait (c :: cs) = [(c :: cs).getLast (List.cons_ne_nil c cs)] := by
  induction cs generalizing c with
  | nil => simp [debounceExecuted]
  | cons c2 rest ih =>
      rw [gapsBelow, Bool.and_eq_true, decide_eq_true_eq] at h
      rw [debounceExecuted, if_pos h.1, ih c2 h.2,
        List.getLast_cons (List.cons_ne_nil c2 rest)]

/-- Witness for C7: three calls 150 ms apart on a 300 ms channel execute
only the third. -/
theorem debounce_burst_witness :
    debounceExecuted 300 [(0, 10), (150, 20), (300, 30)] = [(300, 30)] := by
  have h := debounce_burst_last_only Nat 300 (0, 10) [(150, 20), (300, 30)] (by decide)
  simpa using h

/-! ### Helper lemmas: the scroll-load trim -/

theorem scrollTrim_of_lt (s : DataStore α) (limit : Nat)
    (h : s.data.length < s.maxRecords) : scrollTrim s limit = s := by
  rw [scrollTrim, if_neg (Nat.not_le.mpr h)]

theorem scrollTrim_error (s : DataStore α) (limit : Nat) :
    (scrollTrim s limit).error = s.error := by
  rw [scrollTrim]
  split <;> rfl

theorem scrollTrim_maxRecords (s : DataStore α) (limit : Nat) :
    (scrollTrim s limit).maxRecords = s.maxRecords := by
  rw [scrollTrim]
  split <;> rfl

theorem jsSlice_nonneg (l : List α) (start : Int) (h : 0 ≤ start) :
    jsSlice l start = l.drop start.toNat := by
  rw [jsSlice, if_neg (not_lt.mpr h)]
  rcases le_or_lt start (l.length : Int) with hle | hgt
  · rw [min_eq_left hle]
  · rw [min_eq_right hgt.le]
    have h1 : l.drop ((l.length : Int)).toNat = [] := by simp
    have h2 : l.drop start.toNat = [] := by
      apply List.drop_eq_nil_of_le
      omega
    rw [h1, h2]

theorem jsSlice_neg (l : List α) (start : Int) (h1 : start < 0)
    (h2 : 0 ≤ (l.length : Int) + start) :
    jsSlice l start = l.drop ((l.length : Int) + start).toNat := by
  rw [jsSlice, if_pos h1, max_eq_left h2]

/-- A failing scroll load returns exactly the post-trim state. -/
theorem scrollLoad_failure_result (s : DataStore α) (off limit : Nat) (m : String) :
    (handleScrollLoad s off limit (.failure m)).1 = scrollTrim s limit := rfl

/-- A successful scroll load returns the post-trim state with the
response appended and the total replaced. -/
theorem scrollLoad_success_result (s : DataStore α) (off limit t : Nat) (d : List α) :
    (handleScrollLoad s off limit (.success d t)).1
      = { scrollTrim s limit with
          data := (scrollTrim s limit).data ++ d
          pagination := { (scrollTrim s limit).pagination with total := some t } } := rfl

/-- The cached items after a successful scroll load: the post-trim items
with the response appended. -/
theorem scrollLoad_success_data (s : DataStore α) (off limit t : Nat) (d : List α) :
    (handleScrollLoad s off limit (.success d t)).1.data
      = (scrollTrim s limit).data ++ d := rfl

/-- The data left by the pre-fetch trim when it fires (`length ≥
maxRecords`): for `limit < maxRecords` the last `maxRecords - limit`
items survive; for `limit ≥ maxRecords` the slice start is nonnegative,
so the first `limit - maxRecords` items are dropped instead. -/
theorem scrollTrim_data_of_ge (s : DataStore α) (limit : Nat)
    (h : s.maxRecords ≤ s.data.length) :
    (scrollTrim s limit).data =
      if limit < s.maxRecords then
        s.data.drop (s.data.length - (s.maxRecords - limit))
      else s.data.drop (limit - s.maxRecords) := by
  simp only [scrollTrim, if_pos h]
  by_cases hl : limit < s.maxRecords
  · rw [if_pos hl,
      jsSlice_neg s.data _ (by omega) (by omega)]
    congr 1
    omega
  · rw [if_neg hl, jsSlice_nonneg s.data _ (by omega)]
    congr 1
    omega

/-! ### Claim theorems: window cache -/

/-- Counterexample to C2 as stated: from a cache of 2999 items (strictly
below the capacity 3000, so the pre-fetch trim does not fire) a
successful scroll-load append of 1000 items leaves 3999 items, exceeding
`maxRecords`. -/
theorem append_capacity_cex :
    ((handleScrollLoad { initStore Nat with data := List.replicate 2999 0 }
        2999 1000 (.success (List.replicate 1000 0) 5000)).1.data.length = 3999) ∧
    ¬ (3999 ≤ ({ initStore Nat with data := List.replicate 2999 0 }
        : DataStore Nat).maxRecords) := by
  constructor
  · have ht : scrollTrim { initStore Nat with data := List.replicate 2999 0 } 1000
        = { initStore Nat with data := List.replicate 2999 0 } := by
      apply scrollTrim_of_lt
      simp only [List.length_replicate, initStore]
      norm_num
    simp only [handleScrollLoad, ht, List.length_append, List.length_replicate]
  · decide

/-- C2 (amended): the capacity bound holds for the appends the window is
designed for — pre-append count at least the capacity (so the trim
fires), request limit strictly below the capacity, and a response no
longer than the limit; from a pre-append count strictly below the
capacity the post-append length is only bounded by that count plus the
response length, and can exceed the capacity. -/
theorem append_capacity_bound (α : Type) (s : DataStore α)
    (off limit t : Nat) (d : List α)
    (h1 : s.maxRecords ≤ s.data.length) (h2 : limit < s.maxRecords)
    (h3 : d.length ≤ limit) :
    (handleScrollLoad s off limit (.success d t)).1.data.length ≤ s.maxRecords := by
  have htrim := scrollTrim_data_of_ge s limit h1
  rw [if_pos h2] at htrim
  simp only [handleScrollLoad, List.length_append, htrim, List.length_drop]
  omega

/-- Witness for the amended C2 at a concrete store. -/
theorem append_capacity_bound_witness :
    (handleScrollLoad { initStore Nat with data := [1, 2, 3], maxRecords := 3 }
        3 2 (.success [8, 9] 7)).1.data.length
      ≤ ({ initStore Nat with data := [1, 2, 3], maxRecords := 3 }
        : DataStore Nat).maxRecords :=
  append_capacity_bound Nat _ 3 2 7 [8, 9] (by decide) (by decide) (by decide)

/-- Counterexample to C3 as stated: the pre-fetch trim runs before the
request, so a failing scroll load from a full cache (3000 items, limit
1000) leaves 2000 items — the item sequence is not as it was before the
attempt. -/
theorem scrollLoad_failure_cex :
    ((handleScrollLoad { initStore Nat with data := List.replicate 3000 0 }
        3000 1000 (.failure "boom")).1.data.length = 2000) ∧
    (List.replicate (3000 : Nat) (0 : Nat)).length ≠ 2000 := by
  have hd : ({ initStore Nat with data := List.replicate 3000 0 }
      : DataStore Nat).data = List.replicate 3000 0 := rfl
  have hm : ({ initStore Nat with data := List.replicate 3000 0 }
      : DataStore Nat).maxRecords = 3000 := rfl
  constructor
  · have hge : ({ initStore Nat with data := List.replicate 3000 0 }
        : DataStore Nat).maxRecords
        ≤ ({ initStore Nat with data := List.replicate 3000 0 }
        : DataStore Nat).data.length := by
      rw [hd, hm, List.length_replicate]
    have hlt : (1000 : Nat) < ({ initStore Nat with data := List.replicate 3000 0 }
        : DataStore Nat).maxRecords := by
      rw [hm]
      norm_num
    have h := scrollTrim_data_of_ge
        ({ initStore Nat with data := List.replicate 3000 0 } : DataStore Nat) 1000 hge
    rw [if_pos hlt] at h
    rw [scrollLoad_failure_result, h, hd, hm, List.length_drop, List.length_replicate]
  · rw [Ne, List.length_replicate]
    norm_num

/-- C3 (amended): a failing scroll load surfaces no error and appends
nothing — the result is exactly the post-trim state.  When the
pre-attempt count is below the capacity, that state is the original one;
but when the pre-attempt count is at least the capacity, the pre-fetch
trim has already run, so the cache keeps only the trimmed tail (the last
`maxRecords - limit` items for `limit < maxRecords`) despite the
failure. -/
theorem scrollLoad_failure_state (α : Type) (s : DataStore α)
    (off limit : Nat) (m : String) :
    (handleScrollLoad s off limit (.failure m)).1.error = s.error ∧
    (handleScrollLoad s off limit (.failure m)).1 = scrollTrim s limit ∧
    (s.data.length < s.maxRecords →
        (handleScrollLoad s off limit (.failure m)).1 = s) ∧
    (s.maxRecords ≤ s.data.length → limit < s.maxRecords →
        (handleScrollLoad s off limit (.failure m)).1.data
          = s.data.drop (s.data.length - (s.maxRecords - limit))) := by
  have hred : (handleScrollLoad s off limit (.failure m)).1 = scrollTrim s limit := rfl
  refine ⟨?_, hred, ?_, ?_⟩
  · rw [hred, scrollTrim_error]
  · intro h
    rw [hred, scrollTrim_of_lt s limit h]
  · intro h1 h2
    rw [hred, scrollTrim_data_of_ge s limit h1, if_pos h2]

/-- Witness for the amended C3 at a concrete store: the error stays
`none`, and the failed attempt from a full two-item cache keeps only the
last item. -/
theorem scrollLoad_failure_witness :
    (handleScrollLoad { initStore Nat with data := [5, 6], maxRecords := 2 } 2 1
        (.failure "x")).1.error = none ∧
    (handleScrollLoad { initStore Nat with data := [5, 6], maxRecords := 2 } 2 1
        (.failure "x")).1.data = [6] := by
  have h := scrollLoad_failure_state Nat
      { initStore Nat with data := [5, 6], maxRecords := 2 } 2 1 "x"
  refine ⟨h.1.trans rfl, ?_⟩
  have h4 := h.2.2.2 (by decide) (by decide)
  rw [h4]
  decide

/-- Counterexample to C4 as stated: with capacity 3000, a full cache of
3000 items and a request limit of 4000 (`capacity - limit` negative), the
claimed clamp to 0 would leave an empty cache before appending; the
source's `slice(limit - capacity)` instead drops only the first 1000
items, leaving 2000 — appending an empty response then gives 2000 items,
not `max (3000 - 4000) 0 + 0 = 0`. -/
theorem append_clamp_cex :
    ((handleScrollLoad { initStore Nat with data := List.replicate 3000 0 }
        3000 4000 (.success [] 0)).1.data.length = 2000) ∧
    (2000 : Nat) ≠ (max ((3000 : Int) - 4000) 0).toNat + ([] : List Nat).length := by
  have hd : ({ initStore Nat with data := List.replicate 3000 0 }
      : DataStore Nat).data = List.replicate 3000 0 := rfl
  have hm : ({ initStore Nat with data := List.replicate 3000 0 }
      : DataStore Nat).maxRecords = 3000 := rfl
  constructor
  · have hge : ({ initStore Nat with data := List.replicate 3000 0 }
        : DataStore Nat).maxRecords
        ≤ ({ initStore Nat with data := List.replicate 3000 0 }
        : DataStore Nat).data.length := by
      rw [hd, hm, List.length_replicate]
    have hnlt : ¬ ((4000 : Nat) < ({ initStore Nat with data := List.replicate 3000 0 }
        : DataStore Nat).maxRecords) := by
      rw [hm]
      norm_num
    have h := scrollTrim_data_of_ge
        ({ initStore Nat with data := List.replicate 3000 0 } : DataStore Nat) 4000 hge
    rw [if_neg hnlt] at h
    rw [scrollLoad_success_data, h, hd, hm, List.append_nil, List.length_drop,
      List.length_replicate]
  · decide

/-- C4 (amended): when the pre-append count is at least the capacity, the
trim follows JavaScript slice semantics: for `limit < maxRecords` it
keeps the last `maxRecords - limit` items and the appended result has
length `(maxRecords - limit) + |response|`; for `limit ≥ maxRecords` the
slice start `limit - maxRecords` is nonnegative, so it instead drops the
first `limit - maxRecords` items (no clamp to an empty cache).  In
particular, with capacity 3000, limit 1000 and 3000 cached items, a
1000-item response yields the last 2000 pre-existing items followed by
the response, 3000 items in all. -/
theorem append_eviction (α : Type) (s : DataStore α) (off limit t : Nat)
    (d : List α) (h1 : s.maxRecords ≤ s.data.length) :
    (limit < s.maxRecords →
        (handleScrollLoad s off limit (.success d t)).1.data
          = s.data.drop (s.data.length - (s.maxRecords - limit)) ++ d ∧
        (handleScrollLoad s off limit (.success d t)).1.data.length
          = (s.maxRecords - limit) + d.length) ∧
    (s.maxRecords ≤ limit →
        (handleScrollLoad s off limit (.success d t)).1.data
          = s.data.drop (limit - s.maxRecords) ++ d) ∧
    (s.maxRecords = 3000 → limit = 1000 → s.data.length = 3000 → d.length = 1000 →
        (handleScrollLoad s off limit (.success d t)).1.data
          = s.data.drop 1000 ++ d ∧
        (handleScrollLoad s off limit (.success d t)).1.data.length = 3000) := by
  have hdata := scrollTrim_data_of_ge s limit h1
  refine ⟨?_, ?_, ?_⟩
  · intro h2
    rw [if_pos h2] at hdata
    refine ⟨by rw [scrollLoad_success_data, hdata], ?_⟩
    rw [scrollLoad_success_data, hdata, List.length_append, List.length_drop]
    omega
  · intro h2
    rw [if_neg (not_lt.mpr h2)] at hdata
    rw [scrollLoad_success_data, hdata]
  · intro hc hl hn hdl
    have h2 : limit < s.maxRecords := by omega
    rw [if_pos h2] at hdata
    constructor
    · rw [scrollLoad_success_data, hdata, hn, hc, hl]
    · rw [scrollLoad_success_data, hdata, List.length_append, List.length_drop]
      omega

/-- Witness for the amended C4 at a concrete store: capacity 3, full
cache `[1, 2, 3]`, limit 1, response `[9]` gives `[2, 3, 9]`. -/
theorem append_eviction_witness :
    (handleScrollLoad { initStore Nat with data := [1, 2, 3], maxRecords := 3 } 3 1
        (.success [9] 7)).1.data = [2, 3, 9] := by
  have h := (append_eviction Nat
      { initStore Nat with data := [1, 2, 3], maxRecords := 3 }
      3 1 7 [9] (by decide)).1 (by decide)
  rw [h.1]
  decide

/-! ### Claim theorems: query-state setters -/

/-- Counterexample to C1 as stated: the sorts setter does not reset the
page.  From page 5 (`current = 5`, `pageSize = 1000`), `setSorts` leaves
`current = 5` and the full-refresh request it triggers carries offset
4000, not 0. -/
theorem setSorts_no_reset_cex :
    ((setSorts { initStore Nat with pagination :=
        { current := some 5, pageSize := some 1000, total := some 0 } }
        [] (.success [] 0)).1.pagination.current = some 5) ∧
    (Option.map (fun r => r.offset)
      (setSorts { initStore Nat with pagination :=
        { current := some 5, pageSize := some 1000, total := some 0 } }
        [] (.success [] 0)).2 = some 4000) ∧
    some (5 : Nat) ≠ some (1 : Nat) ∧ some (4000 : Nat) ≠ some (0 : Nat) := by
  decide

/-- C1 (amended): mutating the filters or the search string through its
setter resets the page to 1 — so the triggered full-refresh request
carries offset 0 — and (when no full refresh is already in flight)
triggers one full-refresh request; mutating the sorts likewise triggers a
full-refresh request but leaves the page, and hence the request offset,
as they were. -/
theorem setters_reset_offset (α : Type) (s : DataStore α)
    (fs : List FilterCondition) (ss : List SortCondition) (q : String)
    (o : FetchOutcome α) (h : s.isFetching = false) :
    ((setFilters s fs o).1.pagination.current = some 1 ∧
      ∃ req, (setFilters s fs o).2 = some req ∧ req.offset = 0) ∧
    ((setGlobalSearch s q o).1.pagination.current = some 1 ∧
      ∃ req, (setGlobalSearch s q o).2 = some req ∧ req.offset = 0) ∧
    ((setSorts s ss o).1.pagination.current = s.pagination.current ∧
      ∃ req, (setSorts s ss o).2 = some req ∧
        req.offset = (jsOr s.pagination.current 1 - 1)
          * jsOr s.pagination.pageSize 1000) := by
  refine ⟨⟨?_, ?_⟩, ⟨?_, ?_⟩, ⟨?_, ?_⟩⟩ <;>
    cases o <;>
      simp [setFilters, setGlobalSearch, setSorts, fetchData, fetchBegin, fetchEnd,
        h, jsOr]

/-- Witness for the amended C1 at a concrete store on page 7. -/
theorem setters_reset_offset_witness :
    ((setFilters { initStore Nat with pagination :=
        { current := some 7, pageSize := some 10, total := some 0 } }
        [] (.failure "e")).1.pagination.current = some 1) ∧
    ((setSorts { initStore Nat with pagination :=
        { current := some 7, pageSize := some 10, total := some 0 } }
        [] (.failure "e")).1.pagination.current = some 7) := by
  have h := setters_reset_offset Nat
      { initStore Nat with pagination :=
        { current := some 7, pageSize := some 10, total := some 0 } }
      [] [] "" (.failure "e") rfl
  exact ⟨h.1.1, h.2.2.1.trans rfl⟩
